import Mathlib

/-!
Shallow embedding of `pygaze/_eyetracker/libtobiiglasses.py` (the Tobii Pro
Glasses 2 driver and online gaze-event classifier), together with theorems
settling the specification claims about it.

Conventions of the embedding:

* Python dictionaries produced by `sample()`, `sample3D()` and
  `eye_position()` each carry one coordinate key (`'gp'`, `'gp3'` or `'pc'`)
  plus `'ts'` and `'gidx'`; they are modelled by the single record `PySample`
  with one field per possible key (a call site only reads the field that
  matches the dictionary it was handed, so the unused fields are inert
  defaults).
* Python floats are modelled as rationals (`ℚ`); the few quantities the code
  derives through `sqrt`/`arccos` live in `ℝ`.
* The live sample stream polled by the blocking `wait_for_*` loops is
  modelled as a finite list of (sample, wall-clock poll time) pairs; one
  pair is consumed per poll, and `clock.get_time()` calls made during the
  handling of a poll all observe that poll's wall-clock time.  A loop that
  exhausts the list without its exit condition firing yields `none`
  (in Python it would keep polling).
* `log.error` / `log.debug` side effects are modelled as an explicit list of
  `LogEvent` values returned alongside the result; calls into the tracker
  link are likewise recorded as `TrackerCall` values where a claim needs
  them.
* Exceptions escaping a function are modelled with `Except` / an explicit
  error component.
-/

/-- Python exceptions that the embedded code can raise. -/
inductive PyErr where
  | attributeError
  | typeError
  | indexError
  | exception
  deriving DecidableEq, Repr

/-- Log messages emitted through `log.error` / `log.debug` by the embedded
functions, one constructor per distinct message site. -/
inductive LogEvent where
  | errorUnsupportedSampleType
  | errorNoGazeData
  | errorNoGaze3dData
  | errorNoEyePositionData
  | errorNotCapturing
  | errorAlreadyRecording
  | errorNoRecordingStarted
  | debugRecordingStarted
  deriving DecidableEq, Repr

/-- A sample dictionary as built by `sample()` (key `'gp'`), `sample3D()`
(key `'gp3'`) or `eye_position()` (key `'pc'`), together with `'ts'` and
`'gidx'`.  The 2D gaze point is a pair, the 3D gaze point and the eye
position are triples, exactly as the device delivers them. -/
structure PySample where
  gp : ℚ × ℚ := (-1, -1)
  gp3 : ℚ × ℚ × ℚ := (-1, -1, -1)
  pc : ℚ × ℚ × ℚ := (-1, -1, -1)
  ts : ℚ := -1
  gidx : ℤ := -1
  deriving DecidableEq, Repr

/-- Embeds `TobiiGlassesTracker.is_valid_sample` (source lines 1436-1465).
Branches on the `sample_type` string; a sample is reported invalid exactly
when its coordinate vector for that kind equals the kind-specific sentinel;
every branch falls through to the final `return True`, and an unsupported
kind first logs an error.  The second component collects the log calls. -/
def is_valid_sample (sample : PySample) (sample_type : String) :
    Bool × List LogEvent :=
  if sample_type = "gp3" then
    if sample.gp3 = (-1, -1, -1) then (false, []) else (true, [])
  else if sample_type = "gp" then
    if sample.gp = (-1, -1) then (false, []) else (true, [])
  else if sample_type = "pc" then
    if sample.pc = (-1, -1, -1) then (false, []) else (true, [])
  else
    (true, [LogEvent.errorUnsupportedSampleType])

/-- Embeds `TobiiGlassesTracker.is_same_event` (source lines 1468-1490):
`all(gaze['gidx'] == gp3['gidx'] == eye['gidx'] for gaze, gp3, eye in
zip(gaze_samples, gp3_samples, eye_samples))`, where the chained Python
comparison means `gaze.gidx = gp3.gidx` and `gp3.gidx = eye.gidx`. -/
def is_same_event (gaze_samples gp3_samples eye_samples : List PySample) :
    Bool :=
  (gaze_samples.zip (gp3_samples.zip eye_samples)).all fun t =>
    t.1.gidx == t.2.1.gidx && t.2.1.gidx == t.2.2.gidx

/-- The latest `'gp'` entry of the tracker link's data snapshot
(`self.tobiiglasses.get_gp()`); `none` models the state in which no gaze
position data is available, where reading the entry's fields raises the
`IndexError` that the caller's handler anticipates. -/
structure TrackerGP where
  gp : ℚ × ℚ
  ts : ℚ
  gidx : ℤ
  deriving DecidableEq, Repr

/-- The latest `'gp3'` entry of the tracker link's data snapshot
(`self.tobiiglasses.get_gp3()`); `none` models "no data available". -/
structure TrackerGP3 where
  gp3 : ℚ × ℚ × ℚ
  ts : ℚ
  gidx : ℤ
  deriving DecidableEq, Repr

/-- The slice of the tracker-link state that `sample()` and `sample3D()`
consult: whether the device is streaming, and the latest gaze data. -/
structure TrackerState where
  streaming : Bool
  gp_data : Option TrackerGP
  gp3_data : Option TrackerGP3

/-- Embeds `TobiiGlassesTracker.sample` (source lines 764-791).  While
streaming it builds the result dictionary from the latest `'gp'` data;
when that access fails with `IndexError` it logs the condition and
substitutes the sentinel-filled dictionary; either way the `finally`
block returns the dictionary.  When not streaming it only logs an error
and implicitly returns `None`. -/
def sample (t : TrackerState) : Option PySample × List LogEvent :=
  if t.streaming then
    match t.gp_data with
    | some d => (some { gp := d.gp, ts := d.ts, gidx := d.gidx }, [])
    | none =>
        (some { gp := (-1, -1), ts := -1, gidx := -1 },
         [LogEvent.errorNoGazeData])
  else
    (none, [LogEvent.errorNotCapturing])

/-- Embeds `TobiiGlassesTracker.sample3D` (source lines 794-821), the
`'gp3'` analogue of `sample`. -/
def sample3D (t : TrackerState) : Option PySample × List LogEvent :=
  if t.streaming then
    match t.gp3_data with
    | some d => (some { gp3 := d.gp3, ts := d.ts, gidx := d.gidx }, [])
    | none =>
        (some { gp3 := (-1, -1, -1), ts := -1, gidx := -1 },
         [LogEvent.errorNoGaze3dData])
  else
    (none, [LogEvent.errorNotCapturing])

/-- The session attributes `start_recording` / `stop_recording` read and
write on the tracker object. -/
structure SessionState where
  current_recording_id : Option String
  current_project_id : Option String
  current_participant_id : Option String
  deriving DecidableEq, Repr

/-- Calls made against the tracker link by the session manager. -/
inductive TrackerCall where
  | createRecording
  | startRecording
  | stopRecording
  | waitRecordingDone
  deriving DecidableEq, Repr

/-- Result of a session-manager operation: the updated session state, the
exception it raised (if any), its log output, and the tracker-link calls
it performed. -/
structure SessionOutcome where
  state : SessionState
  raised : Option PyErr
  logs : List LogEvent
  calls : List TrackerCall
  deriving DecidableEq, Repr

/-- Embeds `TobiiGlassesTracker.start_recording` (source lines 858-879).
With no recording active it creates a recording (the fresh id returned by
the tracker link is the parameter `newId`), stores it, and starts it; a
failure of the start call (`start_ok = false`) re-raises as a generic
`Exception`.  With a recording already active it only logs an error. -/
def start_recording (st : SessionState) (newId : String) (start_ok : Bool) :
    SessionOutcome :=
  match st.current_recording_id with
  | none =>
      let st' := { st with current_recording_id := some newId }
      if start_ok then
        { state := st', raised := none,
          logs := [LogEvent.debugRecordingStarted],
          calls := [TrackerCall.createRecording, TrackerCall.startRecording] }
      else
        { state := st', raised := some PyErr.exception, logs := [],
          calls := [TrackerCall.createRecording, TrackerCall.startRecording] }
  | some _ =>
      { state := st, raised := none,
        logs := [LogEvent.errorAlreadyRecording], calls := [] }

/-- Embeds `TobiiGlassesTracker.stop_recording` (source lines 889-908).
With no recording active it only logs an error; otherwise it stops the
recording, waits for completion, and resets `current_recording_id`. -/
def stop_recording (st : SessionState) : SessionOutcome :=
  match st.current_recording_id with
  | none =>
      { state := st, raised := none,
        logs := [LogEvent.errorNoRecordingStarted], calls := [] }
  | some _ =>
      { state := { st with current_recording_id := none }, raised := none,
        logs := [],
        calls := [TrackerCall.stopRecording, TrackerCall.waitRecordingDone] }

/-- The event-detection configuration attributes read by the detector
loops (`self.pxfixtresh`, `self.fixtimetresh`, `self.pxdsttresh`,
`self.weightdist`, `self.pxspdtresh`, `self.pxacctresh`); modelled as
explicit parameters of the detectors. -/
structure DetectionConfig where
  pxfixtresh : ℚ
  fixtimetresh : ℚ
  pxdsttresh : ℚ × ℚ
  weightdist : ℚ
  pxspdtresh : ℚ
  pxacctresh : ℚ
  deriving DecidableEq, Repr

/-- Embeds the recurring "draw a sample, retry while it is invalid" prologue
(`spos = self.sample(); while not self.is_valid_sample(spos, 'gp'):
spos = self.sample()`): skips stream entries whose gaze sample is invalid
and returns the first valid one with its poll time and the unread suffix. -/
def fetch_valid_gp :
    List (PySample × ℚ) →
    Option ((PySample × ℚ) × List (PySample × ℚ))
  | [] => none
  | (s, t) :: rest =>
      if (is_valid_sample s "gp").1 then some ((s, t), rest)
      else fetch_valid_gp rest

/-- Embeds the `while moving:` loop of the dispersion strategy in
`wait_for_fixation_start` (source lines 1074-1094), carrying the current
anchor sample `spos` and anchor time `t0`.  A valid sample farther than
`pxfixtresh` (squared comparison) resets anchor and timer to that sample;
a valid near sample returns `{'ts': t0, 'spos': spos}` once
`t1 - t0 >= fixtimetresh`; invalid samples are skipped. -/
def wait_for_fixation_start_loop (cfg : DetectionConfig) (spos : PySample)
    (t0 : ℚ) :
    List (PySample × ℚ) →
    Option ((ℚ × PySample) × List (PySample × ℚ))
  | [] => none
  | (npos, t1) :: rest =>
      if (is_valid_sample npos "gp").1 then
        if (npos.gp.1 - spos.gp.1) ^ 2 + (npos.gp.2 - spos.gp.2) ^ 2 >
            cfg.pxfixtresh ^ 2 then
          wait_for_fixation_start_loop cfg npos t1 rest
        else
          if t1 - t0 ≥ cfg.fixtimetresh then some ((t0, spos), rest)
          else wait_for_fixation_start_loop cfg spos t0 rest
      else wait_for_fixation_start_loop cfg spos t0 rest

/-- Embeds the non-experimental (dispersion) path of
`TobiiGlassesTracker.wait_for_fixation_start` (source lines 1058-1094):
the first valid gaze sample becomes the anchor with the current wall time,
then the stability loop runs.  The result carries the returned dictionary
`{'ts', 'spos'}` and the unread suffix of the stream; `none` means the
stream ended with the loop still polling. -/
def wait_for_fixation_start (cfg : DetectionConfig)
    (stream : List (PySample × ℚ)) :
    Option ((ℚ × PySample) × List (PySample × ℚ)) :=
  match fetch_valid_gp stream with
  | none => none
  | some ((spos, t0), rest) => wait_for_fixation_start_loop cfg spos t0 rest

/-- Embeds the `while True:` loop of the dispersion path of
`wait_for_fixation_end` (source lines 1221-1234): polls until a valid
sample deviates from the anchor `spos` beyond `pxfixtresh` (squared
comparison), then returns `{'fixation_time': clock.get_time(),
'gaze_pos': spos}` — the wall time of the detecting poll and the anchor
sample, not the deviating sample's own timestamp or position. -/
def wait_for_fixation_end_loop (cfg : DetectionConfig) (spos : PySample) :
    List (PySample × ℚ) →
    Option ((ℚ × PySample) × List (PySample × ℚ))
  | [] => none
  | (npos, t1) :: rest =>
      if (is_valid_sample npos "gp").1 then
        if (npos.gp.1 - spos.gp.1) ^ 2 + (npos.gp.2 - spos.gp.2) ^ 2 >
            cfg.pxfixtresh ^ 2 then
          some ((t1, spos), rest)
        else wait_for_fixation_end_loop cfg spos rest
      else wait_for_fixation_end_loop cfg spos rest

/-- Embeds the non-experimental path of
`TobiiGlassesTracker.wait_for_fixation_end` (source lines 1208-1234):
first `wait_for_fixation_start` establishes `{'ts','spos'}`, then the
deviation loop runs with anchor `spos`. -/
def wait_for_fixation_end (cfg : DetectionConfig)
    (stream : List (PySample × ℚ)) :
    Option ((ℚ × PySample) × List (PySample × ℚ)) :=
  match wait_for_fixation_start cfg stream with
  | none => none
  | some ((_stime, spos), rest) => wait_for_fixation_end_loop cfg spos rest

/-- Embeds `TobiiGlassesTracker.eye_position` (source lines 661-723).
`self.eye_used` is 0 for the whole life of the object (assigned in the
constructor, line 160, and never reassigned — `set_eye_used` only prints
"function not supported yet"), so the left-eye branch always runs while
streaming: it binds `data = self.get_lefteyedata` WITHOUT calling the
method (missing parentheses, line 681), and `data['pc']` then subscripts
the bound method object, raising a `TypeError` that the surrounding
`except IndexError` clause does not catch.  The other two branches (lines
690, 699-700) have the same missing-parentheses slip.  The function can
therefore never return a dictionary: while streaming it raises, and when
not streaming it logs an error and returns Python `None`. -/
def eye_position (t : TrackerState) : Except PyErr (Option PySample × List LogEvent) :=
  if t.streaming then
    Except.error PyErr.typeError
  else
    Except.ok (none, [LogEvent.errorNotCapturing])

/-- Embeds the sample-fetch block of the experimental fixation detector
(source lines 1131-1147 of `wait_for_fixation_start`, repeated verbatim at
lines 1250-1266 of `wait_for_fixation_end`): it polls `sample()`,
`sample3D()` and `eye_position()` against the current tracker snapshot and
only then enters the validity-retry loop.  The `eye_position()` call can
never produce a sample: while streaming it raises `TypeError`, which
propagates out of the block; when not streaming it returns Python `None`
(as do `sample()` and `sample3D()`), and the retry condition's very first
test, `is_valid_sample(gaze_pos, 'gp')`, subscripts that `None` with
`['gp']` and raises `TypeError` as well.  Either way the block terminates
exceptionally before reaching its appends, so it never yields a triple;
the `Except.ok` result type is kept only to state that fact. -/
def fetch_new_samples :
    List TrackerState →
    Option (Except PyErr ((PySample × PySample × PySample) ×
      List TrackerState))
  | [] => none
  | t :: _ =>
      let _gaze_pos := (sample t).1
      let _spos := (sample3D t).1
      match eye_position t with
      | Except.error e => some (Except.error e)
      | Except.ok _ => some (Except.error PyErr.typeError)

/-- The three rolling sample windows owned by the experimental fixation
detector (`self.gaze_samples`, `self.gp3_samples`, `self.eye_samples`). -/
structure SampleWindows where
  gaze_samples : List PySample
  gp3_samples : List PySample
  eye_samples : List PySample
  deriving DecidableEq, Repr

/-- Embeds one steady-state window update of the experimental fixation
detector (source lines 1125-1147 / 1244-1266): evict the oldest sample of
each window (`[1:]`, an attribute mutation that persists even if the rest
of the iteration raises), then fetch one new triple and append its
components.  Since the fetch always terminates exceptionally, the result
records the window attributes left behind (the evicted windows) together
with the exception; the append branch is kept to mirror the source text
but is unreachable. -/
def experimental_window_step (w : SampleWindows)
    (stream : List TrackerState) :
    Option (SampleWindows × Option PyErr) :=
  let w' : SampleWindows :=
    { gaze_samples := w.gaze_samples.drop 1,
      gp3_samples := w.gp3_samples.drop 1,
      eye_samples := w.eye_samples.drop 1 }
  match fetch_new_samples stream with
  | none => none
  | some (Except.error e) => some (w', some e)
  | some (Except.ok ((gaze_pos, spos, eye_pos), _rest)) =>
      some ({ gaze_samples := w'.gaze_samples ++ [gaze_pos],
              gp3_samples := w'.gp3_samples ++ [spos],
              eye_samples := w'.eye_samples ++ [eye_pos] }, none)

/-- Componentwise difference of two 3D points
(`np.array(u) - np.array(v)`). -/
def sub3 (u v : ℚ × ℚ × ℚ) : ℚ × ℚ × ℚ :=
  (u.1 - v.1, u.2.1 - v.2.1, u.2.2 - v.2.2)

/-- Euclidean norm of a 3D point (`np.linalg.norm`). -/
noncomputable def norm3 (v : ℚ × ℚ × ℚ) : ℝ :=
  Real.sqrt ((v.1 : ℝ) ^ 2 + (v.2.1 : ℝ) ^ 2 + (v.2.2 : ℝ) ^ 2)

/-- The Python `math` module has no attribute `abs` (the library provides
`fabs`); looking up `math.abs` raises `AttributeError`.  Modelled as the
absent optional function consulted by `calculate_angular_velocity`. -/
def mathAbs : Option (ℝ → ℝ) := none

/-- Embeds the module-level function `calculate_angular_velocity` (source
lines 73-102).  It forms the law-of-cosines angle between the gaze
directions at the ends of the window and divides by the timestamp span,
but its final expression calls `math.abs`, an attribute the `math` module
does not have, so every call that reaches that line raises
`AttributeError`; empty argument lists fail earlier on the `[0]`
subscript with `IndexError`. -/
noncomputable def calculate_angular_velocity
    (gp3_samples eye_samples : List PySample) : Except PyErr ℝ :=
  match gp3_samples.head?, eye_samples.head?,
      gp3_samples.getLast?, eye_samples.getLast? with
  | some g0, some e0, some gl, some el =>
      let a := norm3 (sub3 g0.gp3 e0.pc)
      let b := norm3 (sub3 gl.gp3 el.pc)
      let c := norm3 (sub3 gl.gp3 g0.gp3)
      let angle := Real.arccos ((a ^ 2 + b ^ 2 - c ^ 2) / (2 * a * b)) *
        (180 / Real.pi)
      let time_diff := gl.ts - g0.ts
      match mathAbs with
      | some f => Except.ok (f (angle / (time_diff : ℝ)))
      | none => Except.error PyErr.attributeError
  | _, _, _, _ => Except.error PyErr.indexError

open Classical in
/-- Embeds the `while not saccadic:` loop of the PyGaze saccade-start
algorithm (source lines 1329-1359), carrying the previous sample, the
reference time `t0` and the previous velocity `v0`.  On a valid, changed
sample whose ellipse-weighted displacement exceeds `weightdist`, it
computes `s`, `v1 = s/(t1-t0)` and `a = (v1-v0)/(t1-t0)` and fires when
`v1 > pxspdtresh or a > pxacctresh`, returning the current wall time and
the previous sample's gaze position; otherwise it rolls `t0, v0` forward.
A sub-`weightdist` displacement only advances the previous sample. -/
noncomputable def wait_for_saccade_start_loop (cfg : DetectionConfig)
    (prevpos : PySample) (t0 : ℚ) (v0 : ℝ) :
    List (PySample × ℚ) →
    Option ((ℚ × (ℚ × ℚ)) × List (PySample × ℚ))
  | [] => none
  | (newpos, t1) :: rest =>
      if (is_valid_sample newpos "gp").1 = true ∧ newpos.gp ≠ prevpos.gp then
        let sx := newpos.gp.1 - prevpos.gp.1
        let sy := newpos.gp.2 - prevpos.gp.2
        if (sx / cfg.pxdsttresh.1) ^ 2 + (sy / cfg.pxdsttresh.2) ^ 2 >
            cfg.weightdist then
          let s : ℝ := Real.sqrt ((sx : ℝ) ^ 2 + (sy : ℝ) ^ 2)
          let v1 : ℝ := s / ((t1 : ℝ) - (t0 : ℝ))
          let a : ℝ := (v1 - v0) / ((t1 : ℝ) - (t0 : ℝ))
          if v1 > (cfg.pxspdtresh : ℝ) ∨ a > (cfg.pxacctresh : ℝ) then
            some ((t1, prevpos.gp), rest)
          else wait_for_saccade_start_loop cfg newpos t1 v1 rest
        else wait_for_saccade_start_loop cfg newpos t0 v0 rest
      else wait_for_saccade_start_loop cfg prevpos t0 v0 rest

/-- Embeds `TobiiGlassesTracker.wait_for_saccade_start` (source lines
1287-1360).  In the source, the warning print for `'native'` mode opens an
if-block, and the whole PyGaze detection body — the prologue, the
`while not saccadic:` loop and the final `return stime, spos` — is
indented one level deeper, INSIDE that `if self.eventdetection ==
'native':` block.  With any other detection mode (in particular
`'pygaze'`, which `set_detection_type` forces), the function body is
empty, so the call polls nothing and Python returns `None`.  The outer
`Option` is `none` when the stream ends with a loop still polling; the
inner `Option` is the Python return value (`none` = Python `None`). -/
noncomputable def wait_for_saccade_start (eventdetection : String)
    (cfg : DetectionConfig) (stream : List (PySample × ℚ)) :
    Option (Option (ℚ × (ℚ × ℚ)) × List (PySample × ℚ)) :=
  if eventdetection = "native" then
    match fetch_valid_gp stream with
    | none => none
    | some ((newpos, t0), rest) =>
        (wait_for_saccade_start_loop cfg newpos t0 0 rest).map
          fun r => (some r.1, r.2)
  else some (none, stream)

/-- Embeds `TobiiGlassesTracker.wait_for_saccade_end` (source lines
1362-1434).  Its prologue runs `t0, spos = self.wait_for_saccade_start()`;
with detection mode `'pygaze'` that call returns `None`, so the tuple
unpacking raises `TypeError`.  Even when a pair is produced, `spos` is the
plain coordinate pair returned by `wait_for_saccade_start`, and the next
statement computes `prevpos['gp'][0] - spos['gp'][0]`, subscripting that
pair with the string key `'gp'`, which raises `TypeError` as well; the
embedding therefore stops at that statement.  The outer `Option` is
`none` when the stream ends with a polling loop still waiting. -/
noncomputable def wait_for_saccade_end (eventdetection : String)
    (cfg : DetectionConfig) (stream : List (PySample × ℚ)) :
    Option (Except PyErr (ℚ × (ℚ × ℚ) × (ℚ × ℚ))) :=
  match wait_for_saccade_start eventdetection cfg stream with
  | none => none
  | some (none, _) => some (Except.error PyErr.typeError)
  | some (some (_t0, _spos), rest) =>
      match fetch_valid_gp rest with
      | none => none
      | some _ => some (Except.error PyErr.typeError)

/-! Helper lemmas shared by the claim theorems. -/

/-- A run of invalid gaze samples is skipped by the validity-retry
prologue, which then returns the first valid sample. -/
lemma fetch_valid_gp_skips_invalid (junk : List (PySample × ℚ))
    (hjunk : ∀ p ∈ junk, (is_valid_sample p.1 "gp").1 = false)
    (s : PySample) (t : ℚ) (rest : List (PySample × ℚ))
    (hs : (is_valid_sample s "gp").1 = true) :
    fetch_valid_gp (junk ++ (s, t) :: rest) = some ((s, t), rest) := by
  induction junk with
  | nil => simp [fetch_valid_gp, hs]
  | cons q junk ih =>
      have hq := hjunk q (List.mem_cons_self q junk)
      simp only [List.cons_append, fetch_valid_gp, hq, Bool.false_eq_true,
        if_false]
      exact ih fun p hp => hjunk p (List.mem_cons_of_mem q hp)

/-- The dispersion stability loop fires with the current anchor and anchor
time as soon as it meets a valid in-range sample whose poll time is
`fixtimetresh` past the anchor time, provided every valid sample seen
before that one stayed in range of the anchor. -/
lemma wait_for_fixation_start_loop_fires (cfg : DetectionConfig)
    (anchor f : PySample) (t0 tf : ℚ)
    (pre post : List (PySample × ℚ))
    (hpre : ∀ p ∈ pre, (is_valid_sample p.1 "gp").1 = true →
      (p.1.gp.1 - anchor.gp.1) ^ 2 + (p.1.gp.2 - anchor.gp.2) ^ 2 ≤
        cfg.pxfixtresh ^ 2)
    (hfv : (is_valid_sample f "gp").1 = true)
    (hfw : (f.gp.1 - anchor.gp.1) ^ 2 + (f.gp.2 - anchor.gp.2) ^ 2 ≤
      cfg.pxfixtresh ^ 2)
    (hft : tf - t0 ≥ cfg.fixtimetresh) :
    ∃ rest', wait_for_fixation_start_loop cfg anchor t0
      (pre ++ (f, tf) :: post) = some ((t0, anchor), rest') := by
  induction pre with
  | nil =>
      refine ⟨post, ?_⟩
      simp [wait_for_fixation_start_loop, hfv, not_lt.2 hfw, hft]
  | cons q pre ih =>
      have htail : ∀ p ∈ pre, (is_valid_sample p.1 "gp").1 = true →
          (p.1.gp.1 - anchor.gp.1) ^ 2 + (p.1.gp.2 - anchor.gp.2) ^ 2 ≤
            cfg.pxfixtresh ^ 2 :=
        fun p hp => hpre p (List.mem_cons_of_mem q hp)
      by_cases hqv : (is_valid_sample q.1 "gp").1 = true
      · have hqw := hpre q (List.mem_cons_self q pre) hqv
        by_cases hqt : q.2 - t0 ≥ cfg.fixtimetresh
        · refine ⟨pre ++ (f, tf) :: post, ?_⟩
          simp [wait_for_fixation_start_loop, hqv, not_lt.2 hqw, hqt]
        · obtain ⟨rest', hrest'⟩ := ih htail
          refine ⟨rest', ?_⟩
          simpa [wait_for_fixation_start_loop, hqv, not_lt.2 hqw, hqt]
            using hrest'
      · obtain ⟨rest', hrest'⟩ := ih htail
        refine ⟨rest', ?_⟩
        simpa [wait_for_fixation_start_loop, hqv] using hrest'

/-- The dispersion fixation-end loop returns the wall time of the first
valid out-of-range sample together with the anchor sample, provided every
valid sample seen before that one stayed in range. -/
lemma wait_for_fixation_end_loop_first_deviation (cfg : DetectionConfig)
    (spos d : PySample) (td : ℚ) (pre post : List (PySample × ℚ))
    (hpre : ∀ p ∈ pre, (is_valid_sample p.1 "gp").1 = true →
      (p.1.gp.1 - spos.gp.1) ^ 2 + (p.1.gp.2 - spos.gp.2) ^ 2 ≤
        cfg.pxfixtresh ^ 2)
    (hdv : (is_valid_sample d "gp").1 = true)
    (hdd : (d.gp.1 - spos.gp.1) ^ 2 + (d.gp.2 - spos.gp.2) ^ 2 >
      cfg.pxfixtresh ^ 2) :
    wait_for_fixation_end_loop cfg spos (pre ++ (d, td) :: post) =
      some ((td, spos), post) := by
  induction pre with
  | nil => simp [wait_for_fixation_end_loop, hdv, hdd]
  | cons q pre ih =>
      have htail : ∀ p ∈ pre, (is_valid_sample p.1 "gp").1 = true →
          (p.1.gp.1 - spos.gp.1) ^ 2 + (p.1.gp.2 - spos.gp.2) ^ 2 ≤
            cfg.pxfixtresh ^ 2 :=
        fun p hp => hpre p (List.mem_cons_of_mem q hp)
      by_cases hqv : (is_valid_sample q.1 "gp").1 = true
      · have hqw := hpre q (List.mem_cons_self q pre) hqv
        simpa [wait_for_fixation_end_loop, hqv, not_lt.2 hqw] using ih htail
      · simpa [wait_for_fixation_end_loop, hqv] using ih htail

/-- In any detection mode other than `'native'` — in particular the
`'pygaze'` mode that `set_detection_type` forces — the whole saccade-start
body is skipped and the function immediately returns Python `None`. -/
lemma wait_for_saccade_start_not_native (eventdetection : String)
    (cfg : DetectionConfig) (stream : List (PySample × ℚ))
    (h : eventdetection ≠ "native") :
    wait_for_saccade_start eventdetection cfg stream = some (none, stream) := by
  simp [wait_for_saccade_start, h]

/-- Claim C7: for every sample and every kind in gp, gp3, pc,
`is_valid_sample` returns `False` iff the sample's coordinate vector for
that kind equals the kind-specific sentinel, and `True` for any
non-sentinel sample; for any kind outside those three it logs an error
and returns `True`. -/
theorem C7_is_valid_sample_characterisation (s : PySample) :
    ((is_valid_sample s "gp").1 = false ↔ s.gp = (-1, -1)) ∧
    ((is_valid_sample s "gp3").1 = false ↔ s.gp3 = (-1, -1, -1)) ∧
    ((is_valid_sample s "pc").1 = false ↔ s.pc = (-1, -1, -1)) ∧
    (∀ k : String, k ≠ "gp" → k ≠ "gp3" → k ≠ "pc" →
      is_valid_sample s k = (true, [LogEvent.errorUnsupportedSampleType])) := by
  refine ⟨?_, ?_, ?_, ?_⟩
  · by_cases h : s.gp = (-1, -1) <;> simp [is_valid_sample, h]
  · by_cases h : s.gp3 = (-1, -1, -1) <;> simp [is_valid_sample, h]
  · by_cases h : s.pc = (-1, -1, -1) <;> simp [is_valid_sample, h]
  · intro k h1 h2 h3
    simp [is_valid_sample, h1, h2, h3]

/-- Witness for C7 at a concrete sample and a concrete unknown kind. -/
theorem C7_witness :
    (("pd" : String) ≠ "gp" ∧ ("pd" : String) ≠ "gp3" ∧
      ("pd" : String) ≠ "pc") ∧
    is_valid_sample { gp := (0, 0), ts := 5, gidx := 2 } "pd" =
      (true, [LogEvent.errorUnsupportedSampleType]) :=
  ⟨by decide,
    (C7_is_valid_sample_characterisation
      { gp := (0, 0), ts := 5, gidx := 2 }).2.2.2 "pd"
      (by decide) (by decide) (by decide)⟩

/-- Claim C8: for three sample sequences of equal length, `is_same_event`
returns `True` iff at every index the `gidx` values of the gaze, gp3 and
eye samples are pairwise equal; a single mismatch makes it `False`, and
empty sequences yield `True` (the right-hand side is vacuous). -/
theorem C8_is_same_event_iff (g p e : List PySample)
    (h1 : g.length = p.length) (h2 : p.length = e.length) :
    is_same_event g p e = true ↔
      ∀ (i : ℕ) (gi pi ei : PySample), g.get? i = some gi →
        p.get? i = some pi → e.get? i = some ei →
        gi.gidx = pi.gidx ∧ pi.gidx = ei.gidx := by
  induction g generalizing p e with
  | nil =>
      have hp : p = [] := List.length_eq_zero.1 h1.symm
      subst hp
      have he : e = [] := List.length_eq_zero.1 h2.symm
      subst he
      simp [is_same_event]
  | cons a g ih =>
      cases p with
      | nil => simp at h1
      | cons b p =>
          cases e with
          | nil => simp at h2
          | cons c e =>
              have h1' : g.length = p.length := by simpa using h1
              have h2' : p.length = e.length := by simpa using h2
              have hstep : is_same_event (a :: g) (b :: p) (c :: e) =
                  ((a.gidx == b.gidx && b.gidx == c.gidx) &&
                    is_same_event g p e) := rfl
              rw [hstep]
              simp only [Bool.and_eq_true, beq_iff_eq, ih p e h1' h2']
              constructor
              · rintro ⟨⟨hab, hbc⟩, htail⟩ i gi pi ei hgi hpi hei
                cases i with
                | zero =>
                    simp only [List.get?_cons_zero, Option.some.injEq]
                      at hgi hpi hei
                    subst hgi; subst hpi; subst hei
                    exact ⟨hab, hbc⟩
                | succ i =>
                    simp only [List.get?_cons_succ] at hgi hpi hei
                    exact htail i gi pi ei hgi hpi hei
              · intro h
                refine ⟨h 0 a b c rfl rfl rfl, ?_⟩
                intro i gi pi ei hgi hpi hei
                exact h (i + 1) gi pi ei (by simpa using hgi)
                  (by simpa using hpi) (by simpa using hei)

/-- Witness for C8: the characterisation instantiated at three concrete
two-element windows with matching event indices. -/
theorem C8_witness :
    (([{ gidx := 4 }, { gidx := 5 }] : List PySample).length =
        ([{ gidx := 4 }, { gidx := 5 }] : List PySample).length ∧
      ([{ gidx := 4 }, { gidx := 5 }] : List PySample).length =
        ([{ gidx := 4 }, { gidx := 5 }] : List PySample).length) ∧
    (is_same_event [{ gidx := 4 }, { gidx := 5 }]
        [{ gidx := 4 }, { gidx := 5 }] [{ gidx := 4 }, { gidx := 5 }] =
        true ↔
      ∀ (i : ℕ) (gi pi ei : PySample),
        ([{ gidx := 4 }, { gidx := 5 }] : List PySample).get? i = some gi →
        ([{ gidx := 4 }, { gidx := 5 }] : List PySample).get? i = some pi →
        ([{ gidx := 4 }, { gidx := 5 }] : List PySample).get? i = some ei →
        gi.gidx = pi.gidx ∧ pi.gidx = ei.gidx) :=
  ⟨⟨rfl, rfl⟩, C8_is_same_event_iff _ _ _ rfl rfl⟩

/-- Claim C9: while the tracker is streaming, a failing data access inside
`sample()` or `sample3D()` does not raise: the condition is logged and the
caller receives the sentinel-filled dictionary. -/
theorem C9_sample_no_data_returns_sentinel (t : TrackerState)
    (hs : t.streaming = true) :
    (t.gp_data = none →
      sample t = (some { gp := (-1, -1), ts := -1, gidx := -1 },
        [LogEvent.errorNoGazeData])) ∧
    (t.gp3_data = none →
      sample3D t = (some { gp3 := (-1, -1, -1), ts := -1, gidx := -1 },
        [LogEvent.errorNoGaze3dData])) := by
  constructor
  · intro h
    simp [sample, hs, h]
  · intro h
    simp [sample3D, hs, h]

/-- Witness for C9 at the concrete tracker state that is streaming with no
data available on either channel. -/
theorem C9_witness :
    ((⟨true, none, none⟩ : TrackerState).streaming = true ∧
      (⟨true, none, none⟩ : TrackerState).gp_data = none ∧
      (⟨true, none, none⟩ : TrackerState).gp3_data = none) ∧
    sample ⟨true, none, none⟩ =
      (some { gp := (-1, -1), ts := -1, gidx := -1 },
        [LogEvent.errorNoGazeData]) ∧
    sample3D ⟨true, none, none⟩ =
      (some { gp3 := (-1, -1, -1), ts := -1, gidx := -1 },
        [LogEvent.errorNoGaze3dData]) :=
  ⟨⟨rfl, rfl, rfl⟩,
    (C9_sample_no_data_returns_sentinel ⟨true, none, none⟩ rfl).1 rfl,
    (C9_sample_no_data_returns_sentinel ⟨true, none, none⟩ rfl).2 rfl⟩

/-- Claim C10: `start_recording` with a recording already active logs an
error and leaves the session state unchanged without contacting the
tracker; `stop_recording` with no active recording likewise logs an error
and leaves the state unchanged; a successful `stop_recording` resets
`current_recording_id` to `None` (and touches nothing else). -/
theorem C10_recording_guards (st : SessionState) (newId r : String)
    (ok : Bool) :
    (st.current_recording_id = some r →
      start_recording st newId ok =
        { state := st, raised := none,
          logs := [LogEvent.errorAlreadyRecording], calls := [] }) ∧
    (st.current_recording_id = none →
      stop_recording st =
        { state := st, raised := none,
          logs := [LogEvent.errorNoRecordingStarted], calls := [] }) ∧
    (st.current_recording_id = some r →
      stop_recording st =
        { state := { st with current_recording_id := none }, raised := none,
          logs := [],
          calls := [TrackerCall.stopRecording,
            TrackerCall.waitRecordingDone] }) := by
  refine ⟨?_, ?_, ?_⟩ <;> intro h <;>
    simp [start_recording, stop_recording, h]

/-- Witness for C10 at concrete session states with and without an active
recording. -/
theorem C10_witness :
    ((⟨some "rec0", some "proj0", some "part0"⟩ :
        SessionState).current_recording_id = some "rec0" ∧
      (⟨none, some "proj0", some "part0"⟩ :
        SessionState).current_recording_id = none) ∧
    start_recording ⟨some "rec0", some "proj0", some "part0"⟩ "rec1" true =
      { state := ⟨some "rec0", some "proj0", some "part0"⟩, raised := none,
        logs := [LogEvent.errorAlreadyRecording], calls := [] } ∧
    stop_recording ⟨none, some "proj0", some "part0"⟩ =
      { state := ⟨none, some "proj0", some "part0"⟩, raised := none,
        logs := [LogEvent.errorNoRecordingStarted], calls := [] } ∧
    stop_recording ⟨some "rec0", some "proj0", some "part0"⟩ =
      { state := ⟨none, some "proj0", some "part0"⟩, raised := none,
        logs := [],
        calls := [TrackerCall.stopRecording,
          TrackerCall.waitRecordingDone] } :=
  ⟨⟨rfl, rfl⟩,
    (C10_recording_guards ⟨some "rec0", some "proj0", some "part0"⟩
      "rec1" "rec0" true).1 rfl,
    (C10_recording_guards ⟨none, some "proj0", some "part0"⟩
      "rec1" "rec0" true).2.1 rfl,
    (C10_recording_guards ⟨some "rec0", some "proj0", some "part0"⟩
      "rec1" "rec0" true).2.2 rfl⟩

/-- Claim C1: with the tracker streaming, no sample — sentinel or
otherwise — is ever appended to the experimental fixation detector's
three sample windows, so in particular every appended sample is
(vacuously) valid for its kind and no sentinel sample serves as evidence:
the `eye_position()` call made before the validity-retry loop subscripts
an uncalled bound method and raises an uncaught `TypeError`, so each
window update terminates exceptionally right after the eviction, leaving
only suffixes of the previous windows behind. -/
theorem C1_no_sample_ever_appended (w : SampleWindows) (t : TrackerState)
    (rest : List TrackerState) (hstr : t.streaming = true) :
    experimental_window_step w (t :: rest) =
      some ({ gaze_samples := w.gaze_samples.drop 1,
              gp3_samples := w.gp3_samples.drop 1,
              eye_samples := w.eye_samples.drop 1 },
        some PyErr.typeError) ∧
    ∀ ws err, experimental_window_step w (t :: rest) = some (ws, err) →
      (∀ s ∈ ws.gaze_samples, s ∈ w.gaze_samples) ∧
      (∀ s ∈ ws.gp3_samples, s ∈ w.gp3_samples) ∧
      (∀ s ∈ ws.eye_samples, s ∈ w.eye_samples) := by
  have hstep : experimental_window_step w (t :: rest) =
      some ({ gaze_samples := w.gaze_samples.drop 1,
              gp3_samples := w.gp3_samples.drop 1,
              eye_samples := w.eye_samples.drop 1 },
        some PyErr.typeError) := by
    simp [experimental_window_step, fetch_new_samples, eye_position, hstr]
  refine ⟨hstep, ?_⟩
  intro ws err h
  rw [hstep] at h
  obtain ⟨hws, -⟩ := Prod.mk.injEq .. ▸ Option.some.injEq .. ▸ h
  subst hws
  exact ⟨fun s hs => List.mem_of_mem_drop hs,
    fun s hs => List.mem_of_mem_drop hs,
    fun s hs => List.mem_of_mem_drop hs⟩

/-- Witness for C1 at full three-sample windows and a streaming tracker
snapshot: the update raises `TypeError` and only evicts. -/
theorem C1_witness :
    ((⟨true, none, none⟩ : TrackerState).streaming = true) ∧
    experimental_window_step
        { gaze_samples := [{ gp := (1, 1), ts := 0, gidx := 0 },
            { gp := (1, 1), ts := 1, gidx := 1 },
            { gp := (1, 1), ts := 2, gidx := 2 }],
          gp3_samples := [{ gp3 := (1, 1, 1), ts := 0, gidx := 0 },
            { gp3 := (1, 1, 1), ts := 1, gidx := 1 },
            { gp3 := (1, 1, 1), ts := 2, gidx := 2 }],
          eye_samples := [{ pc := (1, 1, 1), ts := 0, gidx := 0 },
            { pc := (1, 1, 1), ts := 1, gidx := 1 },
            { pc := (1, 1, 1), ts := 2, gidx := 2 }] }
        [⟨true, none, none⟩] =
      some ({ gaze_samples := [{ gp := (1, 1), ts := 1, gidx := 1 },
                  { gp := (1, 1), ts := 2, gidx := 2 }],
              gp3_samples := [{ gp3 := (1, 1, 1), ts := 1, gidx := 1 },
                  { gp3 := (1, 1, 1), ts := 2, gidx := 2 }],
              eye_samples := [{ pc := (1, 1, 1), ts := 1, gidx := 1 },
                  { pc := (1, 1, 1), ts := 2, gidx := 2 }] },
        some PyErr.typeError) :=
  ⟨rfl,
    (C1_no_sample_ever_appended
      { gaze_samples := [{ gp := (1, 1), ts := 0, gidx := 0 },
          { gp := (1, 1), ts := 1, gidx := 1 },
          { gp := (1, 1), ts := 2, gidx := 2 }],
        gp3_samples := [{ gp3 := (1, 1, 1), ts := 0, gidx := 0 },
          { gp3 := (1, 1, 1), ts := 1, gidx := 1 },
          { gp3 := (1, 1, 1), ts := 2, gidx := 2 }],
        eye_samples := [{ pc := (1, 1, 1), ts := 0, gidx := 0 },
          { pc := (1, 1, 1), ts := 1, gidx := 1 },
          { pc := (1, 1, 1), ts := 2, gidx := 2 }] }
      ⟨true, none, none⟩ [] rfl).1⟩

/-- Claim C2 (violated by the code): with detection mode `'pygaze'`,
`wait_for_saccade_start` skips its entire detection body — which the
source indents inside the `'native'` warning block — polls no samples,
and returns Python `None` instead of a (time, position) pair. -/
theorem C2_saccade_start_skipped_in_pygaze_mode (cfg : DetectionConfig)
    (stream : List (PySample × ℚ)) :
    wait_for_saccade_start "pygaze" cfg stream = some (none, stream) :=
  wait_for_saccade_start_not_native "pygaze" cfg stream (by decide)

/-- Claim C4 (violated by the code): on any non-empty pair of sample
windows, `calculate_angular_velocity` never returns the angular velocity —
its final expression looks up `math.abs`, which the Python `math` module
does not provide, raising `AttributeError`. -/
theorem C4_angular_velocity_raises (x y : PySample)
    (xs ys : List PySample) :
    calculate_angular_velocity (x :: xs) (y :: ys) =
      Except.error PyErr.attributeError := rfl

/-- Claim C6 (violated by the code): with detection mode `'pygaze'`,
`wait_for_saccade_end` raises `TypeError` before its detection loop can
run: `wait_for_saccade_start` returns `None` (claim C2's slip), so the
prologue's tuple unpacking fails — and even given a start pair, the very
next statement subscripts the start-position list with the string key
`'gp'`. -/
theorem C6_saccade_end_raises (cfg : DetectionConfig)
    (stream : List (PySample × ℚ)) :
    wait_for_saccade_end "pygaze" cfg stream =
      some (Except.error PyErr.typeError) := by
  simp [wait_for_saccade_end,
    wait_for_saccade_start_not_native "pygaze" cfg stream (by decide)]

/-- Specialisation of `is_valid_sample` to kind `'gp'`, used to evaluate
the detectors on concrete streams. -/
lemma is_valid_sample_gp (s : PySample) :
    is_valid_sample s "gp" =
      if s.gp = (-1, -1) then (false, []) else (true, []) := rfl

/-- Specialisation of `is_valid_sample` to kind `'gp3'`. -/
lemma is_valid_sample_gp3 (s : PySample) :
    is_valid_sample s "gp3" =
      if s.gp3 = (-1, -1, -1) then (false, []) else (true, []) := rfl

/-- Specialisation of `is_valid_sample` to kind `'pc'`. -/
lemma is_valid_sample_pc (s : PySample) :
    is_valid_sample s "pc" =
      if s.pc = (-1, -1, -1) then (false, []) else (true, []) := rfl

/-- Claim C3: if the valid gaze samples following the first valid sample
(the anchor) stay within `pxfixtresh` of it — squared distances compared
against `pxfixtresh` squared — until a valid sample polled at least
`fixtimetresh` after the anchor time arrives, the dispersion
`wait_for_fixation_start` returns the single result carrying the anchor
time and the anchor sample; and a valid sample deviating beyond
`pxfixtresh` resets both the anchor and the timer to that sample. -/
theorem C3_dispersion_fixation_start (cfg : DetectionConfig)
    (junk : List (PySample × ℚ)) (anchor f : PySample) (t0 tf : ℚ)
    (pre post : List (PySample × ℚ))
    (hjunk : ∀ p ∈ junk, (is_valid_sample p.1 "gp").1 = false)
    (hanchor : (is_valid_sample anchor "gp").1 = true)
    (hpre : ∀ p ∈ pre, (is_valid_sample p.1 "gp").1 = true →
      (p.1.gp.1 - anchor.gp.1) ^ 2 + (p.1.gp.2 - anchor.gp.2) ^ 2 ≤
        cfg.pxfixtresh ^ 2)
    (hfv : (is_valid_sample f "gp").1 = true)
    (hfw : (f.gp.1 - anchor.gp.1) ^ 2 + (f.gp.2 - anchor.gp.2) ^ 2 ≤
      cfg.pxfixtresh ^ 2)
    (hft : tf - t0 ≥ cfg.fixtimetresh) :
    (∃ rest', wait_for_fixation_start cfg
        (junk ++ (anchor, t0) :: (pre ++ (f, tf) :: post)) =
      some ((t0, anchor), rest')) ∧
    (∀ (spos npos : PySample) (ta t1 : ℚ) (more : List (PySample × ℚ)),
      (is_valid_sample npos "gp").1 = true →
      (npos.gp.1 - spos.gp.1) ^ 2 + (npos.gp.2 - spos.gp.2) ^ 2 >
        cfg.pxfixtresh ^ 2 →
      wait_for_fixation_start_loop cfg spos ta ((npos, t1) :: more) =
        wait_for_fixation_start_loop cfg npos t1 more) := by
  constructor
  · have hfetch := fetch_valid_gp_skips_invalid junk hjunk anchor t0
      (pre ++ (f, tf) :: post) hanchor
    obtain ⟨rest', hrest'⟩ := wait_for_fixation_start_loop_fires cfg anchor
      f t0 tf pre post hpre hfv hfw hft
    exact ⟨rest', by simp [wait_for_fixation_start, hfetch, hrest']⟩
  · intro spos npos ta t1 more hv hd
    simp [wait_for_fixation_start_loop, hv, hd]

/-- Witness for C3: an invalid first poll, an anchor at (100,100)
established at wall time 5, one in-range sample, and an in-range sample
polled 105 ms later, with `pxfixtresh = 2` and `fixtimetresh = 100`. -/
theorem C3_witness :
    ((∀ p ∈ [(({} : PySample), (0 : ℚ))],
        (is_valid_sample p.1 "gp").1 = false) ∧
      (is_valid_sample { gp := (100, 100), ts := 1, gidx := 1 } "gp").1 =
        true ∧
      (∀ p ∈ [(({ gp := (101, 100), ts := 2, gidx := 2 } : PySample),
          (40 : ℚ))], (is_valid_sample p.1 "gp").1 = true →
        (p.1.gp.1 - 100) ^ 2 + (p.1.gp.2 - 100) ^ 2 ≤ (2 : ℚ) ^ 2) ∧
      (is_valid_sample { gp := (100, 101), ts := 3, gidx := 3 } "gp").1 =
        true ∧
      ((100 : ℚ) - 100) ^ 2 + ((101 : ℚ) - 100) ^ 2 ≤ (2 : ℚ) ^ 2 ∧
      (110 : ℚ) - 5 ≥ (100 : ℚ)) ∧
    ((∃ rest', wait_for_fixation_start ⟨2, 100, (1, 1), 10, 35, 9500⟩
        ([(({} : PySample), (0 : ℚ))] ++
          ({ gp := (100, 100), ts := 1, gidx := 1 }, (5 : ℚ)) ::
          ([({ gp := (101, 100), ts := 2, gidx := 2 }, (40 : ℚ))] ++
            ({ gp := (100, 101), ts := 3, gidx := 3 }, (110 : ℚ)) :: [])) =
      some ((5, { gp := (100, 100), ts := 1, gidx := 1 }), rest')) ∧
    (∀ (spos npos : PySample) (ta t1 : ℚ) (more : List (PySample × ℚ)),
      (is_valid_sample npos "gp").1 = true →
      (npos.gp.1 - spos.gp.1) ^ 2 + (npos.gp.2 - spos.gp.2) ^ 2 >
        (2 : ℚ) ^ 2 →
      wait_for_fixation_start_loop ⟨2, 100, (1, 1), 10, 35, 9500⟩ spos ta
          ((npos, t1) :: more) =
        wait_for_fixation_start_loop ⟨2, 100, (1, 1), 10, 35, 9500⟩ npos
          t1 more)) :=
  ⟨⟨by norm_num [is_valid_sample_gp], by norm_num [is_valid_sample_gp],
      by norm_num [is_valid_sample_gp], by norm_num [is_valid_sample_gp],
      by norm_num, by norm_num⟩,
    C3_dispersion_fixation_start ⟨2, 100, (1, 1), 10, 35, 9500⟩
      [({}, 0)] { gp := (100, 100), ts := 1, gidx := 1 }
      { gp := (100, 101), ts := 3, gidx := 3 } 5 110
      [({ gp := (101, 100), ts := 2, gidx := 2 }, 40)] []
      (by norm_num [is_valid_sample_gp]) (by norm_num [is_valid_sample_gp])
      (by norm_num [is_valid_sample_gp]) (by norm_num [is_valid_sample_gp])
      (by norm_num) (by norm_num)⟩

/-- Claim C5: once the dispersion `wait_for_fixation_start` has produced
an anchor, `wait_for_fixation_end` returns at the first valid sample
deviating beyond `pxfixtresh` from the anchor, and the returned
dictionary carries the anchor sample (not the deviating sample) and the
wall-clock poll time at detection (not the deviating sample's device
timestamp). -/
theorem C5_dispersion_fixation_end (cfg : DetectionConfig)
    (stream rest pre post : List (PySample × ℚ)) (t0 td : ℚ)
    (spos d : PySample)
    (hstart : wait_for_fixation_start cfg stream = some ((t0, spos), rest))
    (hrest : rest = pre ++ (d, td) :: post)
    (hpre : ∀ p ∈ pre, (is_valid_sample p.1 "gp").1 = true →
      (p.1.gp.1 - spos.gp.1) ^ 2 + (p.1.gp.2 - spos.gp.2) ^ 2 ≤
        cfg.pxfixtresh ^ 2)
    (hdv : (is_valid_sample d "gp").1 = true)
    (hdd : (d.gp.1 - spos.gp.1) ^ 2 + (d.gp.2 - spos.gp.2) ^ 2 >
      cfg.pxfixtresh ^ 2) :
    wait_for_fixation_end cfg stream = some ((td, spos), post) := by
  subst hrest
  simp [wait_for_fixation_end, hstart,
    wait_for_fixation_end_loop_first_deviation cfg spos d td pre post
      hpre hdv hdd]

/-- Witness for C5: the fixation anchored at (100,100) ends at the sample
(200,200) carrying device timestamp 55 but polled at wall time 130; the
result keeps the anchor position and the wall time 130. -/
theorem C5_witness :
    (wait_for_fixation_start ⟨2, 100, (1, 1), 10, 35, 9500⟩
        [({ gp := (100, 100), ts := 1, gidx := 1 }, (0 : ℚ)),
          ({ gp := (100, 100), ts := 2, gidx := 2 }, (120 : ℚ)),
          ({ gp := (200, 200), ts := 55, gidx := 3 }, (130 : ℚ))] =
      some ((0, { gp := (100, 100), ts := 1, gidx := 1 }),
        [({ gp := (200, 200), ts := 55, gidx := 3 }, (130 : ℚ))]) ∧
      (is_valid_sample { gp := (200, 200), ts := 55, gidx := 3 } "gp").1 =
        true ∧
      ((200 : ℚ) - 100) ^ 2 + ((200 : ℚ) - 100) ^ 2 > (2 : ℚ) ^ 2) ∧
    wait_for_fixation_end ⟨2, 100, (1, 1), 10, 35, 9500⟩
        [({ gp := (100, 100), ts := 1, gidx := 1 }, (0 : ℚ)),
          ({ gp := (100, 100), ts := 2, gidx := 2 }, (120 : ℚ)),
          ({ gp := (200, 200), ts := 55, gidx := 3 }, (130 : ℚ))] =
      some ((130, { gp := (100, 100), ts := 1, gidx := 1 }), []) :=
  ⟨⟨by norm_num [wait_for_fixation_start, fetch_valid_gp,
        wait_for_fixation_start_loop, is_valid_sample_gp],
      by norm_num [is_valid_sample_gp], by norm_num⟩,
    C5_dispersion_fixation_end ⟨2, 100, (1, 1), 10, 35, 9500⟩
      [({ gp := (100, 100), ts := 1, gidx := 1 }, 0),
        ({ gp := (100, 100), ts := 2, gidx := 2 }, 120),
        ({ gp := (200, 200), ts := 55, gidx := 3 }, 130)]
      [({ gp := (200, 200), ts := 55, gidx := 3 }, 130)] [] [] 0 130
      { gp := (100, 100), ts := 1, gidx := 1 }
      { gp := (200, 200), ts := 55, gidx := 3 }
      (by norm_num [wait_for_fixation_start, fetch_valid_gp,
        wait_for_fixation_start_loop, is_valid_sample_gp])
      rfl (by norm_num [is_valid_sample_gp])
      (by norm_num [is_valid_sample_gp]) (by norm_num)⟩
